import Mathlib

/-!
# Verification of `nest.go` (Nest-AC-Troubleshooter)

A shallow embedding of the monitoring state machine of `src/nest.go`:
the fault detector (lines 216-217), the confirmed off/on recovery loops
(lines 243-271), one tick of the poll loop (lines 202-284), the response
navigation of `nestGet` (lines 333-352) and the argument/configuration
validation of `main` (lines 50-136).

Conventions of the embedding:
* Go `int` becomes `Int` (comparisons only; no overflow is relevant here).
* Network effects are oracles: a read result is an `Except`; the stream of
  `nestPut` outcomes is a list consumed in order (`WriteResult` for calls
  that return, `PutOutcome` when the transport-level crash path of line
  364 matters); webhook outcomes are `Except String Unit` for calls that
  return and `WebhookOutcome` when the crash path of line 382 matters.
* A tick of the poll loop is a function of the carried state
  (`lastIsCooling`, `lastTemp`) to the new carried state plus the records
  appended to the output file.  `none` means the recovery loops were still
  running when the supplied write-result stream ran out (the unbounded Go
  loop has not terminated on this stream).
-/

/-- The `NestData` struct of `nest.go` (lines 29-33): one device sample. -/
structure NestData where
  CurrentTemperature : Int
  HvacMode : String
  IsCooling : Bool
deriving DecidableEq, Repr

/-- The `NestConfig` struct of `nest.go` (lines 16-25). -/
structure NestConfig where
  Token : String
  ThermostatID : String
  Minutes : Int
  Output : String
  LastOutput : String
  Debug : Bool
  WebhookPost : String
  WebhookGet : String
deriving DecidableEq, Repr

/-- Outcome of one `nestPut` call (line 246 / 259) that returns to the
    loop body: a clean error return (a redirect-limit error, a non-200
    status, or a failure of the embedded confirmation read) or a
    confirmation sample read back after the write.  A transport-level
    failure of the PUT itself never returns: `client.Do` then yields a
    nil response, and the deferred `resp.Body.Close()` at line 364, which
    precedes the error check, dereferences it and panics the process.
    That crash path is modelled by `PutOutcome` and `runRecoveryLoopP`
    below. -/
inductive WriteResult where
  | err (msg : String)
  | ok (d : NestData)
deriving DecidableEq, Repr

/-- A record written by one iteration of a confirmed-write retry loop:
    an error line (lines 248, 261), a waiting line (lines 251, 264) or a
    confirmation line (lines 254, 267). -/
inductive RecLog where
  | errorRec (msg : String)
  | waiting
  | confirmed
deriving DecidableEq, Repr

/-- Result of running a confirmed-write retry loop on a finite stream of
    write outcomes: the loop variable at exit, the records logged, the mode
    requested by each write attempt, the number of attempts, and the part
    of the stream the loop did not consume. -/
structure LoopResult where
  finalData : NestData
  logs : List RecLog
  requests : List String
  attempts : Nat
  remaining : List WriteResult
deriving DecidableEq, Repr

/-- Go zero value `NestData{}`: what `nestPut` returns alongside an error
    (lines 359, 366, 369), and hence what the loop variable holds after a
    failed attempt, since Go multiple assignment always assigns it. -/
def zeroNestData : NestData := ⟨0, "", false⟩

/-- The sentinel the Go code seeds each retry-loop variable with:
    `NestData{HvacMode: "unrestarted"}` (lines 243, 257). -/
def unrestartedSentinel : NestData := ⟨0, "unrestarted", false⟩

/-- The confirmed-write retry loop of `nest.go` lines 245-256 (shutoff,
    `target = "off"`) and lines 258-269 (restart, `target` = the captured
    mode).  The Go loop re-checks `current.HvacMode != target` before every
    iteration; each iteration performs one write whose outcome is the next
    element of `results`, logs exactly one record, and replaces the loop
    variable with the returned struct (the zero value on error).  `none`
    means the stream ran out with the loop still running. -/
def runRecoveryLoop (target : String) (current : NestData)
    (results : List WriteResult) : Option LoopResult :=
  if current.HvacMode = target then
    some ⟨current, [], [], 0, results⟩
  else
    match results with
    | [] => none
    | WriteResult.err m :: rest =>
        (runRecoveryLoop target zeroNestData rest).map fun r =>
          ⟨r.finalData, RecLog.errorRec m :: r.logs, target :: r.requests,
            r.attempts + 1, r.remaining⟩
    | WriteResult.ok d :: rest =>
        (runRecoveryLoop target d rest).map fun r =>
          ⟨r.finalData,
            (if d.HvacMode = target then RecLog.confirmed else RecLog.waiting) :: r.logs,
            target :: r.requests, r.attempts + 1, r.remaining⟩

/-- The fault detector of `nest.go` lines 216-217: restart exactly when the
    previous and current samples both report active cooling and the
    temperature strictly rose.  (In the source the two else branches of the
    nested ifs perform the identical baseline update, lines 272-279, so the
    two tests are combined into one boolean here.) -/
def restartNeeded (lastIsCooling : Bool) (lastTemp : Int) (curr : NestData) : Bool :=
  if lastIsCooling && curr.IsCooling then
    if lastTemp < curr.CurrentTemperature then true else false
  else false

/-- One line of the output file, per `loop` in `nest.go`. -/
inductive Record where
  | readError (msg : String)
  | sample (cooling : Bool) (temp : Int)
  | restarting
  | offEvent (e : RecLog)
  | onEvent (e : RecLog)
  | webhookPostDone
  | webhookGetDone
deriving DecidableEq, Repr

/-- The records the webhook goroutine (lines 221-242) appends to the output
    file: one confirmation per configured webhook that succeeded; failures
    that return are only printed to the console.  The `Except` outcomes
    cover exactly the webhook calls that return (success, a redirect-limit
    error, or a non-200 status); a transport-level webhook failure never
    returns but panics the goroutine at line 382 and kills the process,
    which is modelled by `WebhookOutcome` and `recoverySequence` below.
    Kept separate from the tick records because the goroutine is
    unsynchronised with the retry loops. -/
def webhookRecords (config : NestConfig) (whPost whGet : Except String Unit) :
    List Record :=
  (if config.WebhookPost ≠ "" then
    match whPost with
    | Except.ok _ => [Record.webhookPostDone]
    | Except.error _ => []
  else []) ++
  (if config.WebhookGet ≠ "" then
    match whGet with
    | Except.ok _ => [Record.webhookGetDone]
    | Except.error _ => []
  else [])

/-- Observable result of one tick of the poll loop: the carried state for
    the next tick, the records written in program order, the concurrent
    webhook records, and the mode requested by each write of the two
    recovery phases. -/
structure TickResult where
  lastIsCooling : Bool
  lastTemp : Int
  records : List Record
  webhookRecords : List Record
  offRequests : List String
  restartRequests : List String
deriving DecidableEq, Repr

/-- One iteration of the `for true` loop of `nest.go` lines 202-284
    (file handling and sleeping elided).  On a failed read: one error line,
    state kept (lines 207-210).  On a successful read: the sample line
    (lines 212-215), then either the recovery sequence (lines 216-271) or a
    plain baseline update (lines 272-279). -/
def tick (config : NestConfig) (lastIsCooling : Bool) (lastTemp : Int)
    (readResult : Except String NestData) (writes : List WriteResult)
    (whPost whGet : Except String Unit) : Option TickResult :=
  match readResult with
  | Except.error e =>
      some ⟨lastIsCooling, lastTemp, [Record.readError e], [], [], []⟩
  | Except.ok d =>
      if restartNeeded lastIsCooling lastTemp d then
        match runRecoveryLoop "off" unrestartedSentinel writes with
        | none => none
        | some offR =>
            match runRecoveryLoop d.HvacMode unrestartedSentinel offR.remaining with
            | none => none
            | some onR =>
                some ⟨onR.finalData.IsCooling, onR.finalData.CurrentTemperature,
                  Record.sample d.IsCooling d.CurrentTemperature :: Record.restarting ::
                    (offR.logs.map Record.offEvent ++ onR.logs.map Record.onEvent),
                  webhookRecords config whPost whGet,
                  offR.requests, onR.requests⟩
      else
        some ⟨d.IsCooling, d.CurrentTemperature,
          [Record.sample d.IsCooling d.CurrentTemperature], [], [], []⟩

/-- Seed of the poll-loop state, line 201: `lastIsCooling := false`. -/
def initialLastIsCooling : Bool := false

/-- Seed of the poll-loop state, line 200: `lastTemp := 0`. -/
def initialLastTemp : Int := 0

example :
    runRecoveryLoop "off" unrestartedSentinel
      [WriteResult.ok ⟨70, "cool", true⟩, WriteResult.ok ⟨70, "off", false⟩]
      = some ⟨⟨70, "off", false⟩, [RecLog.waiting, RecLog.confirmed],
          ["off", "off"], 2, []⟩ := by decide

example :
    runRecoveryLoop "" unrestartedSentinel [WriteResult.err "boom"]
      = some ⟨zeroNestData, [RecLog.errorRec "boom"], [""], 1, []⟩ := by decide

/-! ## Unfolding equations of the retry loop -/

/-- Entry with the loop condition already false: zero attempts, nothing
    consumed (lines 245 / 258 check the condition before each iteration). -/
theorem runRecoveryLoop_done (target : String) (c : NestData)
    (results : List WriteResult) (hc : c.HvacMode = target) :
    runRecoveryLoop target c results = some ⟨c, [], [], 0, results⟩ := by
  rw [runRecoveryLoop.eq_def, if_pos hc]

/-- An active loop with no write outcomes left has not terminated. -/
theorem runRecoveryLoop_nil (target : String) (c : NestData)
    (hc : c.HvacMode ≠ target) :
    runRecoveryLoop target c [] = none := by
  rw [runRecoveryLoop.eq_def, if_neg hc]

/-- An active loop facing a failed write: log the error, loop variable
    becomes the Go zero value, retry on the rest of the stream. -/
theorem runRecoveryLoop_err (target : String) (c : NestData)
    (hc : c.HvacMode ≠ target) (m : String) (rest : List WriteResult) :
    runRecoveryLoop target c (WriteResult.err m :: rest)
      = (runRecoveryLoop target zeroNestData rest).map (fun r =>
          ⟨r.finalData, RecLog.errorRec m :: r.logs, target :: r.requests,
            r.attempts + 1, r.remaining⟩) := by
  rw [runRecoveryLoop.eq_def, if_neg hc]

/-- An active loop facing a successful write: log waiting or confirmation
    depending on the returned mode, loop variable becomes the returned
    sample, continue on the rest of the stream. -/
theorem runRecoveryLoop_ok (target : String) (c : NestData)
    (hc : c.HvacMode ≠ target) (d : NestData) (rest : List WriteResult) :
    runRecoveryLoop target c (WriteResult.ok d :: rest)
      = (runRecoveryLoop target d rest).map (fun r =>
          ⟨r.finalData,
            (if d.HvacMode = target then RecLog.confirmed else RecLog.waiting) :: r.logs,
            target :: r.requests, r.attempts + 1, r.remaining⟩) := by
  rw [runRecoveryLoop.eq_def, if_neg hc]

/-- The behaviour of an active loop does not depend on which non-matching
    sample the loop variable currently holds. -/
theorem runRecoveryLoop_congr (target : String) (results : List WriteResult)
    (c1 c2 : NestData) (h1 : c1.HvacMode ≠ target) (h2 : c2.HvacMode ≠ target) :
    runRecoveryLoop target c1 results = runRecoveryLoop target c2 results := by
  rw [runRecoveryLoop.eq_def, runRecoveryLoop.eq_def, if_neg h1, if_neg h2]

/-- Every attempt of the loop requests the same target mode. -/
theorem runRecoveryLoop_requests (target : String) (results : List WriteResult) :
    ∀ (c : NestData) (r : LoopResult),
      runRecoveryLoop target c results = some r →
      r.requests = List.replicate r.attempts target := by
  induction results with
  | nil =>
      intro c r h
      by_cases hc : c.HvacMode = target
      · rw [runRecoveryLoop_done target c [] hc] at h
        cases h; rfl
      · rw [runRecoveryLoop_nil target c hc] at h
        cases h
  | cons w rest ih =>
      intro c r h
      by_cases hc : c.HvacMode = target
      · rw [runRecoveryLoop_done target c _ hc] at h
        cases h; rfl
      · cases w with
        | err m =>
            rw [runRecoveryLoop_err target c hc m rest] at h
            rcases Option.map_eq_some'.mp h with ⟨s, hs, rfl⟩
            simp [ih zeroNestData s hs, List.replicate_succ]
        | ok d =>
            rw [runRecoveryLoop_ok target c hc d rest] at h
            rcases Option.map_eq_some'.mp h with ⟨s, hs, rfl⟩
            simp [ih d s hs, List.replicate_succ]

/-- A loop that logged nothing never entered its body: the loop variable is
    returned as is, and it already matched the target. -/
theorem runRecoveryLoop_logs_nil (target : String) (c : NestData)
    (results : List WriteResult) (r : LoopResult)
    (h : runRecoveryLoop target c results = some r) (hnil : r.logs = []) :
    r.finalData = c ∧ c.HvacMode = target := by
  by_cases hc : c.HvacMode = target
  · rw [runRecoveryLoop_done target c results hc] at h
    cases h; exact ⟨rfl, hc⟩
  · cases results with
    | nil => rw [runRecoveryLoop_nil target c hc] at h; cases h
    | cons w rest =>
        cases w with
        | err m =>
            rw [runRecoveryLoop_err target c hc m rest] at h
            rcases Option.map_eq_some'.mp h with ⟨s, _, rfl⟩
            simp at hnil
        | ok d =>
            rw [runRecoveryLoop_ok target c hc d rest] at h
            rcases Option.map_eq_some'.mp h with ⟨s, _, rfl⟩
            simp at hnil

/-- A loop whose last record is the confirmation exited with a sample whose
    mode matches the target: the confirmation line is only written for a
    matching write, and the loop stops as soon as it matches. -/
theorem runRecoveryLoop_last_confirmed (target : String)
    (results : List WriteResult) :
    ∀ (c : NestData) (r : LoopResult),
      runRecoveryLoop target c results = some r →
      r.logs.getLast? = some RecLog.confirmed →
      r.finalData.HvacMode = target := by
  induction results with
  | nil =>
      intro c r h _
      by_cases hc : c.HvacMode = target
      · rw [runRecoveryLoop_done target c [] hc] at h
        cases h; exact hc
      · rw [runRecoveryLoop_nil target c hc] at h
        cases h
  | cons w rest ih =>
      intro c r h hlast
      by_cases hc : c.HvacMode = target
      · rw [runRecoveryLoop_done target c _ hc] at h
        cases h; exact hc
      · cases w with
        | err m =>
            rw [runRecoveryLoop_err target c hc m rest] at h
            rcases Option.map_eq_some'.mp h with ⟨s, hs, rfl⟩
            rcases hl : s.logs with _ | ⟨x, xs⟩
            · have hn := runRecoveryLoop_logs_nil target zeroNestData rest s hs hl
              simpa [hn.1] using hn.2
            · refine ih zeroNestData s hs ?_
              rw [hl]
              rw [hl] at hlast
              simpa only [List.getLast?_cons_cons] using hlast
        | ok d =>
            rw [runRecoveryLoop_ok target c hc d rest] at h
            rcases Option.map_eq_some'.mp h with ⟨s, hs, rfl⟩
            rcases hl : s.logs with _ | ⟨x, xs⟩
            · have hn := runRecoveryLoop_logs_nil target d rest s hs hl
              simpa [hn.1] using hn.2
            · refine ih d s hs ?_
              rw [hl]
              rw [hl] at hlast
              simpa only [List.getLast?_cons_cons] using hlast

/-- Running an active loop against a stub that answers with non-matching
    samples for a while and then a matching one: the matching attempt ends
    the loop, the rest of the stream is untouched. -/
theorem runRecoveryLoop_stub (target : String) (samples : List NestData) :
    ∀ (c : NestData) (dEnd : NestData) (rest : List WriteResult),
      c.HvacMode ≠ target → (∀ s ∈ samples, s.HvacMode ≠ target) →
      dEnd.HvacMode = target →
      runRecoveryLoop target c (samples.map WriteResult.ok ++ WriteResult.ok dEnd :: rest)
        = some ⟨dEnd, List.replicate samples.length RecLog.waiting ++ [RecLog.confirmed],
            List.replicate (samples.length + 1) target, samples.length + 1, rest⟩ := by
  induction samples with
  | nil =>
      intro c dEnd rest hc _ hEnd
      rw [List.map_nil, List.nil_append, runRecoveryLoop_ok target c hc dEnd rest,
        runRecoveryLoop_done target dEnd rest hEnd]
      simp [hEnd]
  | cons s ss ih =>
      intro c dEnd rest hc hs hEnd
      have h1 : s.HvacMode ≠ target := hs s (by simp)
      rw [List.map_cons, List.cons_append, runRecoveryLoop_ok target c hc s _,
        ih s dEnd rest h1 (fun x hx => hs x (by simp [hx])) hEnd]
      simp [h1, List.replicate_succ]

/-- Cleanly failing writes (the error returns of `nestPut`: redirect-limit
    errors, non-200 statuses, confirmation-read failures) are transparent
    to an active loop whose target is not the empty string: each one adds
    an error record and another attempt at the same target, and the loop
    then behaves exactly as it would on the stream without the failures.
    (The empty-string caveat exists because a failed `nestPut` leaves the
    Go zero value, whose mode is the empty string, in the loop variable.
    Transport-level failures do not return at all; see `PutOutcome`.) -/
theorem runRecoveryLoop_err_prefix (target : String) (h0 : target ≠ "")
    (msgs : List String) :
    ∀ (c : NestData) (rest : List WriteResult), c.HvacMode ≠ target →
      runRecoveryLoop target c (msgs.map WriteResult.err ++ rest)
        = (runRecoveryLoop target c rest).map (fun r =>
            ⟨r.finalData, msgs.map RecLog.errorRec ++ r.logs,
              List.replicate msgs.length target ++ r.requests,
              msgs.length + r.attempts, r.remaining⟩) := by
  induction msgs with
  | nil =>
      intro c rest hc
      cases hr : runRecoveryLoop target c rest <;> simp [hr]
  | cons m ms ih =>
      intro c rest hc
      have hz : zeroNestData.HvacMode ≠ target := Ne.symm h0
      rw [List.map_cons, List.cons_append, runRecoveryLoop_err target c hc m _,
        runRecoveryLoop_congr target (ms.map WriteResult.err ++ rest) zeroNestData c hz hc,
        ih c rest hc]
      cases hr : runRecoveryLoop target c rest <;>
        simp [hr, List.replicate_succ]
      omega

/-! ## Claims about the detector and the retry loops -/

/-- Claim C1: the fault detector decides restart-needed if and only if the
    previous sample was cooling, the current sample is cooling, and the
    current temperature is strictly greater than the previous one; every
    other combination decides no restart. -/
theorem c1_restart_detector_iff (b : Bool) (t : Int) (d : NestData) :
    restartNeeded b t d = true ↔
      b = true ∧ d.IsCooling = true ∧ t < d.CurrentTemperature := by
  cases b <;> cases hx : d.IsCooling <;> by_cases ht : t < d.CurrentTemperature <;>
    simp [restartNeeded, hx, ht]

/-- Claim C2, counterexample to the unrestricted statement: when the
    requested mode is the sentinel string that seeds the loop variable,
    the loop exits before its first attempt, so a stub that would return a
    matching sample at once (N = 0) sees 0 write attempts, not N + 1 = 1. -/
theorem c2_counterexample :
    (runRecoveryLoop "unrestarted" unrestartedSentinel
        [WriteResult.ok ⟨0, "unrestarted", false⟩]).map LoopResult.attempts
      = some 0 ∧
    (runRecoveryLoop "unrestarted" unrestartedSentinel
        [WriteResult.ok ⟨0, "unrestarted", false⟩]).map LoopResult.attempts
      ≠ some 1 := by
  decide

/-- Claim C2 (amended): provided the requested mode is not the internal
    sentinel string that seeds the loop variable, a confirmed-write retry
    loop whose writes return a non-matching sample N times and then a
    matching one performs exactly N + 1 attempts, logs exactly N waiting
    records, and ends on the matching sample. -/
theorem c2_retry_counts (target : String) (samples : List NestData)
    (dEnd : NestData) (rest : List WriteResult)
    (hT : target ≠ "unrestarted")
    (hs : ∀ s ∈ samples, s.HvacMode ≠ target)
    (hEnd : dEnd.HvacMode = target) :
    ∃ r, runRecoveryLoop target unrestartedSentinel
        (samples.map WriteResult.ok ++ WriteResult.ok dEnd :: rest) = some r ∧
      r.attempts = samples.length + 1 ∧
      r.logs.count RecLog.waiting = samples.length ∧
      r.finalData = dEnd := by
  have hc : unrestartedSentinel.HvacMode ≠ target := Ne.symm hT
  refine ⟨_, runRecoveryLoop_stub target samples unrestartedSentinel dEnd rest hc hs hEnd,
    rfl, ?_, rfl⟩
  simp [List.count_append, List.count_replicate]

/-- Witness for the amended claim C2 at N = 1: one waiting answer, then
    the confirming answer, for the shutoff target. -/
theorem c2_retry_counts_witness :
    (("off" : String) ≠ "unrestarted") ∧
    (∀ s ∈ [(⟨70, "cool", true⟩ : NestData)], s.HvacMode ≠ "off") ∧
    ((⟨70, "off", false⟩ : NestData).HvacMode = "off") ∧
    (∃ r, runRecoveryLoop "off" unrestartedSentinel
        ([(⟨70, "cool", true⟩ : NestData)].map WriteResult.ok ++
          WriteResult.ok ⟨70, "off", false⟩ :: []) = some r ∧
      r.attempts = [(⟨70, "cool", true⟩ : NestData)].length + 1 ∧
      r.logs.count RecLog.waiting = [(⟨70, "cool", true⟩ : NestData)].length ∧
      r.finalData = ⟨70, "off", false⟩) :=
  ⟨by decide, by decide, rfl,
    c2_retry_counts "off" [⟨70, "cool", true⟩] ⟨70, "off", false⟩ []
      (by decide) (by decide) rfl⟩

/-! ## Claims about one tick of the poll loop -/

/-- Claim C3: in a recovery sequence, every restart-phase write requests
    exactly the mode captured from the fault-triggering sample, and when the
    sequence completes with a confirming write, the baseline carried into
    the next tick equals the cooling flag and the temperature of the final
    confirmed-on sample. -/
theorem c3_restart_mode_and_baseline (config : NestConfig) (b : Bool) (t : Int)
    (d : NestData) (ws : List WriteResult) (whPost whGet : Except String Unit)
    (offR onR : LoopResult)
    (hFault : restartNeeded b t d = true)
    (hOff : runRecoveryLoop "off" unrestartedSentinel ws = some offR)
    (hOn : runRecoveryLoop d.HvacMode unrestartedSentinel offR.remaining = some onR)
    (hConf : onR.logs.getLast? = some RecLog.confirmed) :
    ∃ r, tick config b t (Except.ok d) ws whPost whGet = some r ∧
      r.restartRequests = List.replicate onR.attempts d.HvacMode ∧
      onR.finalData.HvacMode = d.HvacMode ∧
      r.lastIsCooling = onR.finalData.IsCooling ∧
      r.lastTemp = onR.finalData.CurrentTemperature := by
  have htick : tick config b t (Except.ok d) ws whPost whGet
      = some ⟨onR.finalData.IsCooling, onR.finalData.CurrentTemperature,
          Record.sample d.IsCooling d.CurrentTemperature :: Record.restarting ::
            (offR.logs.map Record.offEvent ++ onR.logs.map Record.onEvent),
          webhookRecords config whPost whGet, offR.requests, onR.requests⟩ := by
    simp only [tick, hFault, if_true, hOff, hOn]
  refine ⟨_, htick, ?_, ?_, rfl, rfl⟩
  · exact runRecoveryLoop_requests d.HvacMode offR.remaining unrestartedSentinel onR hOn
  · exact runRecoveryLoop_last_confirmed d.HvacMode offR.remaining
      unrestartedSentinel onR hOn hConf

/-- Witness for claim C3: a fault at 70 to 72 degrees with captured mode
    cool; the shutoff confirms at once, then the restart confirms at once. -/
theorem c3_restart_mode_and_baseline_witness :
    (restartNeeded true 70 ⟨72, "cool", true⟩ = true) ∧
    (runRecoveryLoop "off" unrestartedSentinel
        [WriteResult.ok ⟨75, "off", false⟩, WriteResult.ok ⟨74, "cool", true⟩]
      = some ⟨⟨75, "off", false⟩, [RecLog.confirmed], ["off"], 1,
          [WriteResult.ok ⟨74, "cool", true⟩]⟩) ∧
    ((⟨72, "cool", true⟩ : NestData).HvacMode = "cool") ∧
    (∃ r, tick ⟨"", "", 10, "nest.tsv", "nest_last.json", false, "", ""⟩ true 70
        (Except.ok ⟨72, "cool", true⟩)
        [WriteResult.ok ⟨75, "off", false⟩, WriteResult.ok ⟨74, "cool", true⟩]
        (Except.ok ()) (Except.ok ()) = some r ∧
      r.restartRequests = List.replicate
        (⟨⟨74, "cool", true⟩, [RecLog.confirmed], ["cool"], 1, []⟩ : LoopResult).attempts
        (⟨72, "cool", true⟩ : NestData).HvacMode ∧
      (⟨⟨74, "cool", true⟩, [RecLog.confirmed], ["cool"], 1, []⟩ : LoopResult).finalData.HvacMode
        = (⟨72, "cool", true⟩ : NestData).HvacMode ∧
      r.lastIsCooling =
        (⟨⟨74, "cool", true⟩, [RecLog.confirmed], ["cool"], 1, []⟩ : LoopResult).finalData.IsCooling ∧
      r.lastTemp =
        (⟨⟨74, "cool", true⟩, [RecLog.confirmed], ["cool"], 1, []⟩ : LoopResult).finalData.CurrentTemperature) :=
  ⟨by decide, by decide, rfl,
    c3_restart_mode_and_baseline ⟨"", "", 10, "nest.tsv", "nest_last.json", false, "", ""⟩
      true 70 ⟨72, "cool", true⟩
      [WriteResult.ok ⟨75, "off", false⟩, WriteResult.ok ⟨74, "cool", true⟩]
      (Except.ok ()) (Except.ok ())
      ⟨⟨75, "off", false⟩, [RecLog.confirmed], ["off"], 1, [WriteResult.ok ⟨74, "cool", true⟩]⟩
      ⟨⟨74, "cool", true⟩, [RecLog.confirmed], ["cool"], 1, []⟩
      (by decide) (by decide) (by decide) (by decide)⟩

/-! ## The crash paths of `nestPut` and `webhook`

Both `nestPut` (line 364) and `webhook` (line 382) run
`defer resp.Body.Close()` before checking the error from `client.Do`.
A transport-level failure (unreachable host, DNS) makes `client.Do`
return a nil response together with the error, and evaluating
`resp.Body` in the defer statement dereferences the nil pointer: the
process panics before either function can return.  Only a
redirect-limit error (which comes with a non-nil response) or a non-200
status reaches the clean error returns.  In `nestPut` the panic kills
the process in the middle of a retry loop; in `webhook` it panics the
fire-and-forget goroutine, and an unrecovered goroutine panic kills the
whole program, retry loops included. -/

/-- Outcome of one `nestPut` call with the crash path included: `panics`
    is a transport-level failure of the PUT (nil response, so the defer at
    line 364 panics); `err` is an error return that reaches the loop body;
    `ok` is a confirmation sample. -/
inductive PutOutcome where
  | panics
  | err (msg : String)
  | ok (d : NestData)
deriving DecidableEq, Repr

/-- How a confirmed-write retry loop driven by crash-capable writes ends:
    the process died mid-loop (with the records written before the crash),
    the stream ran out with the loop still running, or the loop finished
    with the final sample, its records, its requests, the attempt count
    and the unconsumed stream. -/
inductive RetryOutcome where
  | crashed (logs : List RecLog)
  | exhausted
  | finished (finalData : NestData) (logs : List RecLog) (requests : List String)
      (attempts : Nat) (remaining : List PutOutcome)
deriving DecidableEq, Repr

/-- The retry loop of lines 245-256 / 258-269 over crash-capable write
    outcomes: identical to `runRecoveryLoop` on `err` and `ok`, but a
    transport-level PUT failure panics inside `nestPut`, so the logging in
    the loop body is never reached and the loop (and the process) dies on
    the spot. -/
def runRecoveryLoopP (target : String) (current : NestData)
    (results : List PutOutcome) : RetryOutcome :=
  if current.HvacMode = target then
    RetryOutcome.finished current [] [] 0 results
  else
    match results with
    | [] => RetryOutcome.exhausted
    | PutOutcome.panics :: _ => RetryOutcome.crashed []
    | PutOutcome.err m :: rest =>
        match runRecoveryLoopP target zeroNestData rest with
        | RetryOutcome.crashed logs => RetryOutcome.crashed (RecLog.errorRec m :: logs)
        | RetryOutcome.exhausted => RetryOutcome.exhausted
        | RetryOutcome.finished d logs reqs n rem =>
            RetryOutcome.finished d (RecLog.errorRec m :: logs) (target :: reqs)
              (n + 1) rem
    | PutOutcome.ok d :: rest =>
        match runRecoveryLoopP target d rest with
        | RetryOutcome.crashed logs =>
            RetryOutcome.crashed
              ((if d.HvacMode = target then RecLog.confirmed else RecLog.waiting) :: logs)
        | RetryOutcome.exhausted => RetryOutcome.exhausted
        | RetryOutcome.finished d2 logs reqs n rem =>
            RetryOutcome.finished d2
              ((if d.HvacMode = target then RecLog.confirmed else RecLog.waiting) :: logs)
              (target :: reqs) (n + 1) rem

/-- Claim C4 evaluated on the code: a write attempt that fails at the
    transport level is not logged and not retried: `client.Do` returns a
    nil response and the deferred `resp.Body.Close()` at line 364 panics
    before `nestPut` can return, crashing the process mid-loop — as the
    very first write (first conjunct, nothing logged at all) or after a
    clean error had been logged and retried (second conjunct).  Only write
    errors that do return, a non-200 status or a redirect-limit error, are
    logged and retried as the claim describes (third conjunct). -/
theorem c4_transport_error_crashes :
    runRecoveryLoopP "off" unrestartedSentinel [PutOutcome.panics]
      = RetryOutcome.crashed [] ∧
    runRecoveryLoopP "off" unrestartedSentinel
        [PutOutcome.err "no answer from Nest", PutOutcome.panics]
      = RetryOutcome.crashed [RecLog.errorRec "no answer from Nest"] ∧
    runRecoveryLoopP "off" unrestartedSentinel
        [PutOutcome.err "no answer from Nest", PutOutcome.ok ⟨70, "off", false⟩]
      = RetryOutcome.finished ⟨70, "off", false⟩
          [RecLog.errorRec "no answer from Nest", RecLog.confirmed]
          ["off", "off"] 2 [] := by
  decide

/-- Outcome of one `webhook` call (lines 375-387) with the crash path
    included: `panics` is a transport-level failure (nil response, so the
    defer at line 382 panics the goroutine); `err` a returned error
    (redirect-limit or non-200); `ok` success. -/
inductive WebhookOutcome where
  | panics
  | err
  | ok
deriving DecidableEq, Repr

/-- Whether the goroutine of lines 221-242 panics: it invokes the post
    webhook first when configured, then the get webhook; a transport-level
    failure of whichever configured call runs panics the goroutine.  (If
    the post call panics the get call never runs, but the process dies
    either way, so the disjunction is the exact crash condition.) -/
def webhookCrashes (config : NestConfig) (whPost whGet : WebhookOutcome) : Bool :=
  (config.WebhookPost != "" && whPost == WebhookOutcome.panics) ||
  (config.WebhookGet != "" && whGet == WebhookOutcome.panics)

/-- How a whole recovery sequence (lines 218-271) ends once the crash
    paths are modelled: the process died (a transport-level PUT failure,
    or the goroutine panic, which kills the program at an unspecified
    moment and aborts whatever is still running), the write stream ran out
    with a loop still going, or both loops confirmed. -/
inductive SequenceOutcome where
  | crashed
  | incomplete
  | completed (finalData : NestData) (offLogs onLogs : List RecLog)
deriving DecidableEq, Repr

/-- The recovery sequence of lines 218-271 over crash-capable webhook and
    write outcomes: launch the goroutine, run the confirmed-off loop, then
    the confirmed-restart loop on what is left of the write stream. -/
def recoverySequence (config : NestConfig) (capturedMode : String)
    (writes : List PutOutcome) (whPost whGet : WebhookOutcome) : SequenceOutcome :=
  if webhookCrashes config whPost whGet then SequenceOutcome.crashed
  else
    match runRecoveryLoopP "off" unrestartedSentinel writes with
    | RetryOutcome.crashed _ => SequenceOutcome.crashed
    | RetryOutcome.exhausted => SequenceOutcome.incomplete
    | RetryOutcome.finished _ offLogs _ _ rem =>
        match runRecoveryLoopP capturedMode unrestartedSentinel rem with
        | RetryOutcome.crashed _ => SequenceOutcome.crashed
        | RetryOutcome.exhausted => SequenceOutcome.incomplete
        | RetryOutcome.finished dOn onLogs _ _ _ =>
            SequenceOutcome.completed dOn offLogs onLogs

/-- Claim C5 evaluated on the code: a transport-level failure of a
    configured webhook call panics the fire-and-forget goroutine (line
    382) and kills the whole process, aborting the recovery sequence
    (first conjunct) — contrary to the claim that a webhook failure never
    blocks, aborts or crashes the retry loops.  A webhook failure that
    returns (non-200 or redirect-limit) indeed leaves the sequence to
    complete and log its confirmations (second conjunct), and with no
    webhook configured the calls are never made (third conjunct). -/
theorem c5_webhook_transport_failure_crashes :
    recoverySequence ⟨"", "", 10, "nest.tsv", "nest_last.json", false, "http://hook", ""⟩
        "cool" [PutOutcome.ok ⟨75, "off", false⟩, PutOutcome.ok ⟨74, "cool", true⟩]
        WebhookOutcome.panics WebhookOutcome.ok
      = SequenceOutcome.crashed ∧
    recoverySequence ⟨"", "", 10, "nest.tsv", "nest_last.json", false, "http://hook", ""⟩
        "cool" [PutOutcome.ok ⟨75, "off", false⟩, PutOutcome.ok ⟨74, "cool", true⟩]
        WebhookOutcome.err WebhookOutcome.ok
      = SequenceOutcome.completed ⟨74, "cool", true⟩
          [RecLog.confirmed] [RecLog.confirmed] ∧
    recoverySequence ⟨"", "", 10, "nest.tsv", "nest_last.json", false, "", ""⟩
        "cool" [PutOutcome.ok ⟨75, "off", false⟩, PutOutcome.ok ⟨74, "cool", true⟩]
        WebhookOutcome.panics WebhookOutcome.panics
      = SequenceOutcome.completed ⟨74, "cool", true⟩
          [RecLog.confirmed] [RecLog.confirmed] := by
  decide

/-- Claim C8: a tick whose read fails logs exactly one error record, keeps
    the baseline untouched, enters no recovery, and completes. -/
theorem c8_read_failure_keeps_baseline (config : NestConfig) (b : Bool)
    (t : Int) (e : String) (ws : List WriteResult)
    (w1 w2 : Except String Unit) :
    tick config b t (Except.error e) ws w1 w2
      = some ⟨b, t, [Record.readError e], [], [], []⟩ := rfl

/-- Claim C9: a tick whose read succeeds without firing the fault detector
    replaces the baseline by the new sample exactly. -/
theorem c9_nonfault_baseline_update (config : NestConfig) (b : Bool) (t : Int)
    (d : NestData) (ws : List WriteResult) (w1 w2 : Except String Unit)
    (h : restartNeeded b t d = false) :
    tick config b t (Except.ok d) ws w1 w2
      = some ⟨d.IsCooling, d.CurrentTemperature,
          [Record.sample d.IsCooling d.CurrentTemperature], [], [], []⟩ := by
  simp [tick, h]

/-- Witness for claim C9, the falling-temperature scenario: previous sample
    cooling at 72, current sample cooling at 70. -/
theorem c9_nonfault_baseline_update_witness :
    (restartNeeded true 72 ⟨70, "cool", true⟩ = false) ∧
    (tick ⟨"", "", 10, "nest.tsv", "nest_last.json", false, "", ""⟩ true 72
        (Except.ok ⟨70, "cool", true⟩) [] (Except.ok ()) (Except.ok ())
      = some ⟨true, 70, [Record.sample true 70], [], [], []⟩) :=
  ⟨by decide,
    c9_nonfault_baseline_update ⟨"", "", 10, "nest.tsv", "nest_last.json", false, "", ""⟩
      true 72 ⟨70, "cool", true⟩ [] (Except.ok ()) (Except.ok ()) (by decide)⟩

/-- Claim C10: on the very first tick the baseline is the seeded pair
    (false, 0), whose cooling flag falsifies the fault condition, so for
    every sample the read may return the tick takes the plain
    baseline-update path and no recovery sequence is entered. -/
theorem c10_first_tick_no_recovery (config : NestConfig) (d : NestData)
    (ws : List WriteResult) (w1 w2 : Except String Unit) :
    tick config initialLastIsCooling initialLastTemp (Except.ok d) ws w1 w2
      = some ⟨d.IsCooling, d.CurrentTemperature,
          [Record.sample d.IsCooling d.CurrentTemperature], [], [], []⟩ := by
  have h : restartNeeded initialLastIsCooling initialLastTemp d = false := by
    simp [restartNeeded, initialLastIsCooling]
  simp [tick, h]

/-! ## The response navigation of `nestGet` (lines 333-352)

`nestGet` unmarshals the body into a dynamic value and walks
`devices / thermostats / <id>` with one-result type assertions:
`dataNavigator[key].(map[string]interface{})` and, at the leaf,
`.(float64)` / `.(string)`.  In Go a one-result assertion on a missing key
(a nil interface), on a value of another type, or on a JSON null does not
return an error: it panics.  `encoding/json` never produces a typed nil
map, so the `dataNavigator == nil` guard of lines 341 and 345 can never
fire on unmarshal output and the error return of line 346 is unreachable:
every schema mismatch reaches a panicking assertion first.  The embedding
makes the panic a distinct outcome. -/

/-- A decoded JSON value as `json.Unmarshal` produces it into an
    `interface` value.  Numbers carry the integral value the device
    reports (Go reads them as `float64` and truncates with `int(...)`;
    the truncation is irrelevant to the claims settled here). -/
inductive Json where
  | null
  | bool (b : Bool)
  | num (n : Int)
  | str (s : String)
  | arr (elems : List Json)
  | obj (fields : List (String × Json))

/-- Go map lookup on an unmarshalled object (keys are distinct after
    unmarshalling): `none` is the nil interface a missing key yields. -/
def jsonLookup : List (String × Json) → String → Option Json
  | [], _ => none
  | (k, v) :: rest, key => if k = key then some v else jsonLookup rest key

/-- The navigation loop of lines 340-344: look the next key up and assert
    the value is an object; `none` stands for the panic of a failed
    assertion (missing key, null, or a non-object value). -/
def navigateObjects : List (String × Json) → List String → Option (List (String × Json))
  | fields, [] => some fields
  | fields, key :: keys =>
      match jsonLookup fields key with
      | some (Json.obj inner) => navigateObjects inner keys
      | _ => none

/-- How a `nestGet` response-processing run can end: a runtime panic from
    a failed type assertion, a returned error value, or a sample. -/
inductive GetOutcome where
  | panics
  | fail (msg : String)
  | ok (d : NestData)
deriving DecidableEq, Repr

/-- Lines 338-352 of `nestGet`: assert the root is an object, walk
    `devices / thermostats / <id>`, then extract
    `ambient_temperature_f` (float64), `hvac_mode` (string) and
    `hvac_state` (string), each with a panicking one-result assertion.
    The `fail` outcome (the error return of line 346) is unreachable from
    unmarshal output, as explained above, and indeed never produced. -/
def nestGetDecode (thermostatID : String) (raw : Json) : GetOutcome :=
  match raw with
  | Json.obj root =>
      match navigateObjects root ["devices", "thermostats", thermostatID] with
      | none => GetOutcome.panics
      | some leaf =>
          match jsonLookup leaf "ambient_temperature_f" with
          | some (Json.num n) =>
              match jsonLookup leaf "hvac_mode" with
              | some (Json.str mode) =>
                  match jsonLookup leaf "hvac_state" with
                  | some (Json.str st) => GetOutcome.ok ⟨n, mode, st == "cooling"⟩
                  | _ => GetOutcome.panics
              | _ => GetOutcome.panics
          | _ => GetOutcome.panics
  | _ => GetOutcome.panics

/-- Claim C6 evaluated on the code: a response whose thermostats object
    lacks the device id, one whose device entry lacks the temperature
    field, and one whose temperature field has the wrong type all make the
    navigation panic (crash) instead of returning an error value; a
    well-formed response still decodes.  The claim expects a returned
    SchemaError, which would be a `fail` outcome, distinct from `panics`. -/
theorem c6_schema_mismatch_panics :
    nestGetDecode "therm1"
        (Json.obj [("devices", Json.obj [("thermostats", Json.obj [])])])
      = GetOutcome.panics ∧
    nestGetDecode "therm1"
        (Json.obj [("devices", Json.obj [("thermostats",
          Json.obj [("therm1", Json.obj [("hvac_mode", Json.str "cool"),
            ("hvac_state", Json.str "cooling")])])])])
      = GetOutcome.panics ∧
    nestGetDecode "therm1"
        (Json.obj [("devices", Json.obj [("thermostats",
          Json.obj [("therm1", Json.obj [("ambient_temperature_f", Json.str "72"),
            ("hvac_mode", Json.str "cool"),
            ("hvac_state", Json.str "cooling")])])])])
      = GetOutcome.panics ∧
    nestGetDecode "therm1"
        (Json.obj [("devices", Json.obj [("thermostats",
          Json.obj [("therm1", Json.obj [("ambient_temperature_f", Json.num 72),
            ("hvac_mode", Json.str "cool"),
            ("hvac_state", Json.str "cooling")])])])])
      = GetOutcome.ok ⟨72, "cool", true⟩ :=
  ⟨rfl, rfl, rfl, rfl⟩

/-! ## Argument and configuration validation of `main` (lines 50-136)

Every validation failure in `main` calls `printError` and then plain
`return`, so `main` returns normally and the process exit status is 0.
The helper `printErrorExit` (lines 165-168), which prints and calls
`os.Exit(1)`, is defined but never invoked anywhere in the file.  The
embedding records the exit status the process actually gets. -/

/-- The `NestCommand` constants of lines 35-43. -/
inductive NestCommand where
  | thermostatID
  | token
  | minutes
  | config
  | output
  | webhookPost
  | webhookGet
deriving DecidableEq, Repr

/-- How a run of `main` ends: terminating with an exit status before the
    poll loop, or entering `loop(config)` (which never returns). -/
inductive MainOutcome where
  | exit (code : Nat)
  | runLoop (config : NestConfig)
deriving DecidableEq, Repr

/-- Line 51: the defaults `main` starts from. -/
def defaultConfig : NestConfig :=
  ⟨"", "", 10, "nest.tsv", "nest_last.json", false, "", ""⟩

/-- The `argTranslate` map of lines 66-74; `none` is the missing-key
    zero value the Go code compares against the empty string. -/
def argTranslate (s : String) : Option NestCommand :=
  if s = "--thermostat" ∨ s = "-id" then some NestCommand.thermostatID
  else if s = "--token" ∨ s = "-t" then some NestCommand.token
  else if s = "--minute" ∨ s = "-m" then some NestCommand.minutes
  else if s = "--config" ∨ s = "-c" then some NestCommand.config
  else if s = "--output" ∨ s = "-o" then some NestCommand.output
  else if s = "--webhook-post" ∨ s = "-wp" then some NestCommand.webhookPost
  else if s = "--webhook-get" ∨ s = "-wg" then some NestCommand.webhookGet
  else none

/-- The keys of the `allowedSingles` map of line 52. -/
def isAllowedSingle (s : String) : Bool :=
  s = "help" ∨ s = "-h" ∨ s = "--help"

/-- `strings.ToLower` as the flags of `main` meet it: lower-case each
    character (the flags compared against are ASCII). -/
def goToLower (s : String) : String := ⟨s.data.map Char.toLower⟩

/-- Digit run of `strconv.Atoi`: all characters must be decimal digits. -/
def parseDigits : List Char → Nat → Option Nat
  | [], acc => some acc
  | c :: rest, acc =>
      if c.isDigit then parseDigits rest (acc * 10 + (c.toNat - 48)) else none

/-- `strconv.Atoi`: an optional sign followed by at least one digit
    (the range check Atoi also performs is irrelevant to the claims
    settled here). -/
def goAtoi (s : String) : Option Int :=
  match s.data with
  | [] => none
  | '-' :: [] => none
  | '-' :: rest => (parseDigits rest 0).map (fun n => -(n : Int))
  | '+' :: [] => none
  | '+' :: rest => (parseDigits rest 0).map (fun n => (n : Int))
  | l => (parseDigits l 0).map (fun n => (n : Int))

/-- The pair loop of lines 76-83: `for i := 1; i < len(os.Args)-1; i += 2`,
    lower-casing the flag, rejecting singles and unknown flags
    (`unexpectedArgument` and return), and otherwise storing the following
    word, later pairs overwriting earlier ones.  A trailing odd argument is
    ignored.  The map defaults to the empty string, Go's zero value. -/
def buildArgMap : List String → (NestCommand → String) → Option (NestCommand → String)
  | a :: b :: rest, m =>
      let argName := goToLower a
      if isAllowedSingle argName then none
      else
        match argTranslate argName with
        | none => none
        | some cmd => buildArgMap rest (fun c => if c = cmd then b else m c)
  | _, m => some m

/-- `processConfig` (lines 170-190): the file read and the JSON unmarshal
    are one oracle giving the decoded override or an error; fields the
    override leaves at their zero values fall back to the defaults. -/
def processConfig (readCfg : String → Except String NestConfig)
    (fileName : String) (config : NestConfig) : Except String NestConfig :=
  match readCfg fileName with
  | Except.error e => Except.error e
  | Except.ok o =>
      Except.ok ⟨o.Token, o.ThermostatID,
        if o.Minutes < 1 then config.Minutes else o.Minutes,
        if o.Output = "" then config.Output else o.Output,
        if o.LastOutput = "" then config.LastOutput else o.LastOutput,
        o.Debug, o.WebhookPost, o.WebhookGet⟩

/-- Lines 116-135 of `main`: the output override and the two webhook URL
    validations (`url.ParseRequestURI` is the oracle `urlValid`), then
    enter the loop. -/
def finishMain (cfg : NestConfig) (argMap : NestCommand → String)
    (urlValid : String → Bool) : MainOutcome :=
  let cfg4 := if argMap NestCommand.output ≠ ""
    then ⟨cfg.Token, cfg.ThermostatID, cfg.Minutes, argMap NestCommand.output,
      cfg.LastOutput, cfg.Debug, cfg.WebhookPost, cfg.WebhookGet⟩
    else cfg
  if argMap NestCommand.webhookPost ≠ "" ∧ ¬ urlValid (argMap NestCommand.webhookPost)
  then MainOutcome.exit 0
  else
    let cfg5 := if argMap NestCommand.webhookPost ≠ ""
      then ⟨cfg4.Token, cfg4.ThermostatID, cfg4.Minutes, cfg4.Output,
        cfg4.LastOutput, cfg4.Debug, argMap NestCommand.webhookPost, cfg4.WebhookGet⟩
      else cfg4
    if argMap NestCommand.webhookGet ≠ "" ∧ ¬ urlValid (argMap NestCommand.webhookGet)
    then MainOutcome.exit 0
    else
      let cfg6 := if argMap NestCommand.webhookGet ≠ ""
        then ⟨cfg5.Token, cfg5.ThermostatID, cfg5.Minutes, cfg5.Output,
          cfg5.LastOutput, cfg5.Debug, cfg5.WebhookPost, argMap NestCommand.webhookGet⟩
        else cfg5
      MainOutcome.runLoop cfg6

/-- `main` (lines 50-136).  `argv` is `os.Args`, program name included.
    Every `printError` followed by `return` is an exit with status 0 (Go
    returns from `main` normally); `strconv.Atoi` is modelled by `goAtoi`;
    the help paths of lines 53-65 also return normally. -/
def mainGo (argv : List String) (readCfg : String → Except String NestConfig)
    (urlValid : String → Bool) : MainOutcome :=
  if argv.length = 1 then MainOutcome.exit 0
  else if argv.length = 2 then MainOutcome.exit 0
  else
    match buildArgMap (argv.drop 1) (fun _ => "") with
    | none => MainOutcome.exit 0
    | some argMap =>
        let step1 : Except String NestConfig :=
          if argMap NestCommand.config ≠ ""
          then processConfig readCfg (argMap NestCommand.config) defaultConfig
          else Except.ok defaultConfig
        match step1 with
        | Except.error _ => MainOutcome.exit 0
        | Except.ok cfg1 =>
            let cfg2opt : Option NestConfig :=
              if argMap NestCommand.thermostatID ≠ ""
              then some ⟨cfg1.Token, argMap NestCommand.thermostatID, cfg1.Minutes,
                cfg1.Output, cfg1.LastOutput, cfg1.Debug, cfg1.WebhookPost, cfg1.WebhookGet⟩
              else if cfg1.ThermostatID = "" then none
              else some cfg1
            match cfg2opt with
            | none => MainOutcome.exit 0
            | some cfg2 =>
                let cfg3opt : Option NestConfig :=
                  if argMap NestCommand.token ≠ ""
                  then some ⟨argMap NestCommand.token, cfg2.ThermostatID, cfg2.Minutes,
                    cfg2.Output, cfg2.LastOutput, cfg2.Debug, cfg2.WebhookPost, cfg2.WebhookGet⟩
                  else if cfg2.Token = "" then none
                  else some cfg2
                match cfg3opt with
                | none => MainOutcome.exit 0
                | some cfg3 =>
                    if argMap NestCommand.minutes ≠ "" then
                      match goAtoi (argMap NestCommand.minutes) with
                      | none => MainOutcome.exit 0
                      | some n =>
                          if n < 1 then MainOutcome.exit 0
                          else finishMain ⟨cfg3.Token, cfg3.ThermostatID, n,
                            cfg3.Output, cfg3.LastOutput, cfg3.Debug,
                            cfg3.WebhookPost, cfg3.WebhookGet⟩ argMap urlValid
                    else finishMain cfg3 argMap urlValid

/-- Claim C7 evaluated on the code: an out-of-range minutes value (and
    likewise every other pre-loop validation failure, which takes the same
    printError-then-return path) terminates the process before the loop,
    but with exit status 0, not the non-zero status the claim states; the
    only non-zero exit in the source, printErrorExit, is never called.
    A well-formed invocation reaches the loop. -/
theorem c7_config_error_exit_zero :
    mainGo ["nest", "--thermostat", "x", "--token", "t", "--minute", "0"]
        (fun _ => Except.error "unreadable") (fun _ => false)
      = MainOutcome.exit 0 ∧
    mainGo ["nest", "--thermostat", "x", "--token", "t"]
        (fun _ => Except.error "unreadable") (fun _ => false)
      = MainOutcome.runLoop ⟨"t", "x", 10, "nest.tsv", "nest_last.json", false, "", ""⟩ := by
  constructor <;> decide
